import Mathlib

/-!
Shallow embedding of the Lanaya record store
(`src/src-tauri/src/core/database.rs`) and proofs about it.

The SQLite table `record` is modelled as a list of rows held in rowid
(insertion) order, together with the AUTOINCREMENT counter.  The system
clock is passed explicitly as a `now : Nat` argument (milliseconds).
`rusqlite` failures are modelled by `DbErr`; in this pure embedding a
query can only fail with `queryReturnedNoRows` (the rusqlite error that
`query_row` reports when no row matches), but the error type also has a
variant for every other engine failure so that the error-handling
structure of the Rust `match` statements can be stated faithfully.
-/

namespace Lanaya

/-- The `Record` struct of `database.rs` (field `md5` is the content hash,
`create_time` the timestamp in milliseconds, `content_highlight` the
transient search-only field). -/
structure Record where
  id : Nat
  content : String
  data_type : String
  md5 : String
  create_time : Nat
  is_favorite : Bool
  content_highlight : Option String
  deriving Repr, DecidableEq

/-- `Default::default()` for `Record`: zero id, empty strings, zero time,
not favorite, no highlight. -/
def Record.rustDefault : Record :=
  { id := 0, content := "", data_type := "", md5 := "", create_time := 0,
    is_favorite := false, content_highlight := none }

/-- The `QueryReq` struct of `database.rs`. -/
structure QueryReq where
  key : Option String
  limit : Option Nat
  is_favorite : Option Bool
  deriving Repr, DecidableEq

/-- The state of the SQLite `record` table: rows in rowid order plus the
AUTOINCREMENT counter for the next assigned id. -/
structure Store where
  rows : List Record
  nextId : Nat
  deriving Repr, DecidableEq

/-- Errors surfaced by the embedded rusqlite layer.  `queryReturnedNoRows`
is the not-found error of `query_row`; `sqliteFailure` stands for any
other engine failure. -/
inductive DbErr where
  | queryReturnedNoRows
  | sqliteFailure
  deriving Repr, DecidableEq

/-- Modelled from the spec: `string_util::md5` (not under `src/`), the
content hash function — a deterministic fixed-format digest string that is
a pure function of the content; the design treats distinct contents as
having distinct digests (the dedup-key invariant), so the model is an
injective tagging of the content. -/
def md5 (s : String) : String := "#" ++ s

/-- Replace every (non-overlapping, leftmost) occurrence of `t` in the
character list by `r`, with explicit fuel so the recursion is structural;
the fuel is instantiated with the list length, which each step consumes
at least one character of. -/
def replaceFuel (t r : List Char) : Nat → List Char → List Char
  | _, [] => []
  | 0, cs => cs
  | Nat.succ n, c :: cs =>
      if t.isPrefixOf (c :: cs) && !t.isEmpty then
        r ++ replaceFuel t r n (List.drop (t.length - 1) cs)
      else c :: replaceFuel t r n cs

/-- Modelled from the spec: `string_util::highlight` (not under `src/`) —
a pure function of (search term, content) returning the content with the
term's occurrences marked by wrapping them in delimiters. -/
def highlight (term content : String) : String :=
  ⟨replaceFuel term.data ('[' :: term.data ++ [']'])
    content.data.length content.data⟩

/-- `insert_record`: inserts `(content, md5(content), now, is_favorite,
data_type)`; the caller-supplied `md5` and `create_time` fields of `r` are
not used.  Returns the new store and `last_insert_rowid()`. -/
def insert_record (s : Store) (r : Record) (now : Nat) : Store × Nat :=
  let m := md5 r.content
  let newRow : Record :=
    { id := s.nextId, content := r.content, data_type := r.data_type,
      md5 := m, create_time := now, is_favorite := r.is_favorite,
      content_highlight := none }
  ({ rows := s.rows ++ [newRow], nextId := s.nextId + 1 }, s.nextId)

/-- `find_record_by_md5`: `query_row` on `WHERE md5 = ?1`, returning a
`Record` built as `Record { id: row.get(0)?, ..Default::default() }` —
only the id is copied from the row, every other field is the Rust
default. -/
def find_record_by_md5 (s : Store) (m : String) : Except DbErr Record :=
  match s.rows.find? (fun r => r.md5 == m) with
  | some row => .ok { Record.rustDefault with id := row.id }
  | none => .error .queryReturnedNoRows

/-- `update_record_create_time`: `update record set create_time = ?2 where
id = ?1` with the current timestamp. -/
def update_record_create_time (s : Store) (r : Record) (now : Nat) : Store :=
  { s with rows := s.rows.map (fun q =>
      if q.id = r.id then { q with create_time := now } else q) }

/-- The `match` statement of `insert_if_not_exist`, parametrised by the
result of the hash lookup: `Ok(res)` touches `res`, `Err(_e)` — any
error — inserts. -/
def insert_if_not_exist_after_lookup (s : Store) (r : Record) (now : Nat)
    (lookupRes : Except DbErr Record) : Store :=
  match lookupRes with
  | .ok res => update_record_create_time s res now
  | .error _ => (insert_record s r now).1

/-- `insert_if_not_exist`: computes the hash of `r.content`, looks it up,
and dispatches on the result. -/
def insert_if_not_exist (s : Store) (r : Record) (now : Nat) : Store :=
  insert_if_not_exist_after_lookup s r now (find_record_by_md5 s (md5 r.content))

/-- `md5_is_exist`: `SELECT count(*) FROM record WHERE md5 = ?1 > 0`. -/
def md5_is_exist (s : Store) (m : String) : Bool :=
  s.rows.any (fun r => r.md5 == m)

/-- `clear_data`: `delete from record` (the AUTOINCREMENT sequence is kept). -/
def clear_data (s : Store) : Store :=
  { s with rows := [] }

/-- `find_by_id`: `query_row` on `WHERE id = ?1`, building the full record
with `content_highlight: None`, or the no-rows error. -/
def find_by_id (s : Store) (id : Nat) : Except DbErr Record :=
  match s.rows.find? (fun r => r.id == id) with
  | some row => .ok { row with content_highlight := none }
  | none => .error .queryReturnedNoRows

/-- `mark_favorite`: find the record by id (propagating its error), then
`update record set is_favorite = ?2 where id = ?1` with the negation of
the found record's flag. -/
def mark_favorite (s : Store) (id : Nat) : Except DbErr Store :=
  match find_by_id s id with
  | .error e => .error e
  | .ok record =>
    let fav := !record.is_favorite
    .ok { s with rows := s.rows.map (fun q =>
        if q.id = id then { q with is_favorite := fav } else q) }

/-- `ORDER BY create_time desc`: row `a` may come before row `b` when
`b.create_time ≤ a.create_time`. -/
def byTimeDesc (a b : Record) : Prop := b.create_time ≤ a.create_time

instance : DecidableRel byTimeDesc := fun a b =>
  inferInstanceAs (Decidable (b.create_time ≤ a.create_time))

instance : IsTotal Record byTimeDesc :=
  ⟨fun a b => Nat.le_total b.create_time a.create_time⟩

instance : IsTrans Record byTimeDesc :=
  ⟨fun _ _ _ h h' => Nat.le_trans h' h⟩

/-- `ORDER BY id DESC`. -/
def byIdDesc (a b : Record) : Prop := b.id ≤ a.id

instance : DecidableRel byIdDesc := fun a b =>
  inferInstanceAs (Decidable (b.id ≤ a.id))

instance : IsTotal Record byIdDesc :=
  ⟨fun a b => Nat.le_total b.id a.id⟩

instance : IsTrans Record byIdDesc :=
  ⟨fun _ _ _ h h' => Nat.le_trans h' h⟩

/-- `find_all`: all rows ordered by `create_time` descending, each with
`content_highlight: None`. -/
def find_all (s : Store) : List Record :=
  (s.rows.insertionSort byTimeDesc).map
    (fun r => { r with content_highlight := none })

/-- ASCII lower-casing of one character (SQLite's default `LIKE` is
case-insensitive for ASCII). -/
def lowerChar (c : Char) : Char :=
  if 65 ≤ c.toNat ∧ c.toNat ≤ 90 then Char.ofNat (c.toNat + 32) else c

/-- The SQL `content like '%k%'` filter of `find_by_key`: a contains
match, ASCII-case-insensitively as SQLite's default `LIKE`. -/
def likeMatch (k content : String) : Bool :=
  decide (List.IsInfix (k.data.map lowerChar) (content.data.map lowerChar))

/-- The row filter assembled by `find_by_key`: `data_type='text'`, plus
the `content like` clause when a key is given, plus the `is_favorite`
clause when a favorite filter is given. -/
def queryPred (req : QueryReq) (r : Record) : Bool :=
  r.data_type == "text"
    && (match req.key with
        | some k => likeMatch k r.content
        | none => true)
    && (match req.is_favorite with
        | some f => r.is_favorite == f
        | none => true)

/-- `find_by_key`: filtered rows ordered by `create_time` descending,
truncated at the limit (300 when none is given); each result record has
`data_type` set to the literal `"text"` and `content_highlight` populated
from the highlight function exactly when a key was supplied. -/
def find_by_key (s : Store) (req : QueryReq) : List Record :=
  let limit := req.limit.getD 300
  let filtered := s.rows.filter (queryPred req)
  ((filtered.insertionSort byTimeDesc).take limit).map (fun r =>
    { id := r.id, content := r.content, data_type := "text", md5 := r.md5,
      create_time := r.create_time, is_favorite := r.is_favorite,
      content_highlight :=
        match req.key with
        | some k => some (highlight k r.content)
        | none => none })

/-- `delete_over_limit`: the Rust code prepares `SELECT count(*) FROM
record` but never executes it — it reads `stmt.column_count()`, the
number of result columns of the prepared statement, which is `1`.  The
guard `count < 50 + limit` then always holds and the function returns
without deleting.  The dead delete branch removes every row whose id is
in `SELECT id FROM record ORDER BY id DESC LIMIT ?1, 1000000000` (skip
the `limit` highest ids, take up to 10^9 of the rest). -/
def delete_over_limit (s : Store) (limit : Nat) : Store :=
  let count := 1
  if count < 50 + limit then s
  else
    let doomed :=
      (((s.rows.insertionSort byIdDesc).drop limit).take 1000000000).map Record.id
    { s with rows := s.rows.filter (fun r => !(doomed.contains r.id)) }

/-- What the comment above `delete_over_limit` says the guard should read:
the row count of the table.  Kept separate so the divergence between the
code and its own comment can be stated. -/
def delete_over_limit_as_commented (s : Store) (limit : Nat) : Store :=
  let count := s.rows.length
  if count < 50 + limit then s
  else
    let doomed :=
      (((s.rows.insertionSort byIdDesc).drop limit).take 1000000000).map Record.id
    { s with rows := s.rows.filter (fun r => !(doomed.contains r.id)) }

/-- Store well-formedness, maintained by the schema and the store logic:
ids are unique (`PRIMARY KEY`), every id is below the AUTOINCREMENT
counter, and each row's `md5` column is the hash of its `content`. -/
def WF (s : Store) : Prop :=
  (s.rows.map Record.id).Nodup
    ∧ (∀ r ∈ s.rows, r.id < s.nextId)
    ∧ (∀ r ∈ s.rows, r.md5 = md5 r.content)

instance (s : Store) : Decidable (WF s) := by
  unfold WF; infer_instance

/-! ### Helper lemmas -/

/-- The modelled content hash is injective (the dedup-key hypothesis of
the design). -/
theorem md5_inj {a b : String} (h : md5 a = md5 b) : a = b := by
  have hd := congrArg String.data h
  simp only [md5, String.data_append] at hd
  exact String.ext (List.append_cancel_left hd)

/-- A predicate that only looks at fields preserved by `g` commutes with
`map g` under `find?`. -/
theorem find?_map_of_pred_eq (g : Record → Record) (p : Record → Bool)
    (hp : ∀ q, p (g q) = p q) :
    ∀ l : List Record, (l.map g).find? p = (l.find? p).map g := by
  intro l
  induction l with
  | nil => rfl
  | cons a l ih =>
    by_cases ha : p a
    · simp [List.find?_cons_of_pos, ha, hp a]
    · have : ¬ p (g a) = true := by rw [hp a]; exact ha
      simp only [List.map_cons, List.find?_cons_of_neg _ this,
        List.find?_cons_of_neg _ ha, ih]

/-- In a list whose mapped ids are `Nodup`, two members with equal ids are
equal. -/
theorem eq_of_id_eq_of_nodup {l : List Record}
    (hnd : (l.map Record.id).Nodup) {t q : Record}
    (ht : t ∈ l) (hq : q ∈ l) (h : q.id = t.id) : q = t :=
  List.inj_on_of_nodup_map hnd hq ht h

/-! ### C1 -/

/-- A store holding 50 records with ids `0..49` — together with
`limit = 0` this is a failing input for the eviction claim: the excess
over the limit is 50, yet nothing is deleted. -/
def storeOf50 : Store :=
  ⟨(List.range 50).map (fun i =>
      { id := i, content := toString i, data_type := "text",
        md5 := md5 (toString i), create_time := i, is_favorite := false,
        content_highlight := none }), 50⟩

/-- C1 (code bug): `delete_over_limit` never deletes anything — the Rust
code reads `stmt.column_count()` (which is `1` for `SELECT count(*)`)
instead of executing the count query, so the early-return guard
`count < 50 + limit` always holds.  In particular, on a store with
`limit + 50` records (`storeOf50`, `limit = 0`) all 50 records survive,
where the claim requires exactly `limit = 0` survivors.  The comment
above the function says the intended guard is the row count
(`delete_over_limit_as_commented`), which does evict down to `limit`
here. -/
theorem delete_over_limit_never_deletes :
    (∀ (s : Store) (limit : Nat), delete_over_limit s limit = s)
      ∧ (delete_over_limit storeOf50 0).rows.length = 50
      ∧ (delete_over_limit_as_commented storeOf50 0).rows.length = 0 := by
  refine ⟨fun s limit => ?_, ?_, ?_⟩
  · have hlt : (1 : Nat) < 50 + limit := by omega
    simp [delete_over_limit, hlt]
  · have hlt : (1 : Nat) < 50 + 0 := by omega
    simp [delete_over_limit, hlt, storeOf50]
  · decide

/-! ### C4 -/

/-- A sample record passed to the insert path. -/
def sampleRec : Record :=
  { id := 0, content := "abc", data_type := "text", md5 := "",
    create_time := 0, is_favorite := false, content_highlight := none }

/-- C4 counterexample: a lookup failure other than not-found *does*
result in an insert — dispatching the `insert_if_not_exist` match on the
error `sqliteFailure` (which is not the not-found error
`queryReturnedNoRows`) grows the empty store to one row. -/
theorem insert_on_other_lookup_error :
    (insert_if_not_exist_after_lookup ⟨[], 0⟩ sampleRec 5
        (.error .sqliteFailure)).rows.length = 1
      ∧ DbErr.sqliteFailure ≠ DbErr.queryReturnedNoRows := by
  exact ⟨rfl, by decide⟩

/-- C4 (amended): `insert_if_not_exist` takes the insert branch exactly
when the hash lookup returns an error of *any* kind — not-found or any
other failure alike — and takes the touch branch exactly when the lookup
succeeds. -/
theorem insert_if_not_exist_branch_structure (s : Store) (r : Record) (now : Nat) :
    (∀ e : DbErr, insert_if_not_exist_after_lookup s r now (.error e)
        = (insert_record s r now).1)
      ∧ (∀ res : Record, insert_if_not_exist_after_lookup s r now (.ok res)
        = update_record_create_time s res now)
      ∧ insert_if_not_exist s r now
        = insert_if_not_exist_after_lookup s r now
            (find_record_by_md5 s (md5 r.content)) :=
  ⟨fun _ => rfl, fun _ => rfl, rfl⟩

/-! ### C9 -/

/-- A one-row store whose record has every persisted field non-default. -/
def storeAbc : Store :=
  ⟨[{ id := 1, content := "abc", data_type := "text", md5 := md5 "abc",
      create_time := 7, is_favorite := true, content_highlight := none }], 2⟩

/-- C9 counterexample: `find_record_by_md5` does *not* return the stored
record with all persisted fields — it copies only the id and leaves every
other field at the Rust default (`..Default::default()`).  On `storeAbc`
the stored content is `"abc"` but the returned record's content is
`""` (and its `create_time` is `0`, not `7`). -/
theorem find_record_by_md5_loses_fields :
    find_record_by_md5 storeAbc (md5 "abc")
        = .ok { Record.rustDefault with id := 1 }
      ∧ ({ Record.rustDefault with id := 1 } : Record).content ≠ "abc"
      ∧ ({ Record.rustDefault with id := 1 } : Record).create_time ≠ 7 := by
  refine ⟨rfl, by decide, by decide⟩

/-- C9 (amended): when a record with the given hash exists,
`find_record_by_md5` returns a record whose id is the first matching
stored record's id and whose remaining fields are the Rust defaults
(empty content/data_type/md5, zero create_time, not favorite, highlight
absent); when no record matches it signals the not-found error. -/
theorem find_record_by_md5_spec (s : Store) (m : String) :
    (∀ t, s.rows.find? (fun r => r.md5 == m) = some t →
        find_record_by_md5 s m = .ok { Record.rustDefault with id := t.id })
      ∧ (s.rows.find? (fun r => r.md5 == m) = none →
        find_record_by_md5 s m = .error .queryReturnedNoRows) := by
  constructor
  · intro t ht
    simp [find_record_by_md5, ht]
  · intro hn
    simp [find_record_by_md5, hn]

/-- Witness for `find_record_by_md5_spec` at `storeAbc`: the hash of
`"abc"` is found (id copied, defaults elsewhere) and a fresh hash is
not. -/
theorem find_record_by_md5_spec_witness :
    find_record_by_md5 storeAbc (md5 "abc")
        = .ok { Record.rustDefault with id := 1 }
      ∧ find_record_by_md5 storeAbc (md5 "zzz")
        = .error .queryReturnedNoRows :=
  ⟨(find_record_by_md5_spec storeAbc (md5 "abc")).1 _ rfl,
   (find_record_by_md5_spec storeAbc (md5 "zzz")).2 rfl⟩

/-! ### C10 -/

/-- C10: `insert_record` ignores the caller-supplied `md5` and
`create_time` (and `id` and highlight) fields: any two records agreeing
on `content`, `data_type` and `is_favorite` insert identically, and the
stored row carries the recomputed hash `md5 content` and the clock value
`now`, appended with the AUTOINCREMENT id. -/
theorem insert_record_ignores_md5_and_create_time
    (s : Store) (r q : Record) (now : Nat)
    (hc : r.content = q.content) (hd : r.data_type = q.data_type)
    (hf : r.is_favorite = q.is_favorite) :
    insert_record s r now = insert_record s q now
      ∧ (insert_record s r now).1.rows
          = s.rows ++
            [{ id := s.nextId, content := r.content, data_type := r.data_type,
               md5 := md5 r.content, create_time := now,
               is_favorite := r.is_favorite, content_highlight := none }]
      ∧ (insert_record s r now).2 = s.nextId := by
  refine ⟨?_, rfl, rfl⟩
  simp only [insert_record, hc, hd, hf]

/-- Witness for `insert_record_ignores_md5_and_create_time`: two records
sharing content `"x"`, type `"text"` and flag `false` but with different
caller-supplied `md5`, `create_time` and `id` fields insert identically
into the empty store. -/
theorem insert_record_ignores_witness :
    insert_record ⟨[], 0⟩
        { id := 9, content := "x", data_type := "text", md5 := "garbage",
          create_time := 123, is_favorite := false, content_highlight := none } 5
      = insert_record ⟨[], 0⟩
        { id := 42, content := "x", data_type := "text", md5 := "other",
          create_time := 999, is_favorite := false, content_highlight := none } 5
      ∧ (insert_record ⟨[], 0⟩
          { id := 9, content := "x", data_type := "text", md5 := "garbage",
            create_time := 123, is_favorite := false, content_highlight := none } 5).1.rows
        = [] ++
          [{ id := 0, content := "x", data_type := "text", md5 := md5 "x",
             create_time := 5, is_favorite := false, content_highlight := none }]
      ∧ (insert_record ⟨[], 0⟩
          { id := 9, content := "x", data_type := "text", md5 := "garbage",
            create_time := 123, is_favorite := false, content_highlight := none } 5).2 = 0 :=
  insert_record_ignores_md5_and_create_time ⟨[], 0⟩ _ _ 5 rfl rfl rfl

/-! ### C3 -/

/-- C3: when the store already holds a record whose hash matches the
inserted content (`t` is the first such row), `insert_if_not_exist` only
touches: the id counter is unchanged, no row is added, the resulting rows
are the old rows with `create_time := now` on the row(s) carrying the
found id — every other field of the touched row and every other row are
untouched — and every row with a different id is still present
verbatim. -/
theorem insert_if_not_exist_touch_frame (s : Store) (r : Record) (t : Record)
    (now : Nat)
    (hfind : s.rows.find? (fun q => q.md5 == md5 r.content) = some t) :
    (insert_if_not_exist s r now).nextId = s.nextId
      ∧ (insert_if_not_exist s r now).rows.length = s.rows.length
      ∧ (insert_if_not_exist s r now).rows
          = s.rows.map (fun q =>
              if q.id = t.id then { q with create_time := now } else q)
      ∧ ∀ q ∈ s.rows, q.id ≠ t.id → q ∈ (insert_if_not_exist s r now).rows := by
  have hstep : insert_if_not_exist s r now
      = { s with rows := s.rows.map (fun q =>
          if q.id = t.id then { q with create_time := now } else q) } := by
    simp [insert_if_not_exist, find_record_by_md5, hfind,
      insert_if_not_exist_after_lookup, update_record_create_time,
      Record.rustDefault]
  refine ⟨by rw [hstep], by rw [hstep]; exact s.rows.length_map _, by rw [hstep], ?_⟩
  intro q hq hne
  rw [hstep]
  exact List.mem_map.2 ⟨q, hq, by simp [hne]⟩

/-- Witness for `insert_if_not_exist_touch_frame`: re-inserting content
`"abc"` into `storeAbc` at time `99` finds the stored row (id 1) and
only refreshes its timestamp. -/
theorem insert_if_not_exist_touch_frame_witness :
    storeAbc.rows.find? (fun q => q.md5 == md5 (sampleRec.content)) =
        some { id := 1, content := "abc", data_type := "text",
               md5 := md5 "abc", create_time := 7, is_favorite := true,
               content_highlight := none }
      ∧ (insert_if_not_exist storeAbc sampleRec 99).nextId = storeAbc.nextId
      ∧ (insert_if_not_exist storeAbc sampleRec 99).rows.length
          = storeAbc.rows.length
      ∧ (insert_if_not_exist storeAbc sampleRec 99).rows
          = storeAbc.rows.map (fun q =>
              if q.id = 1 then { q with create_time := 99 } else q) := by
  have h := insert_if_not_exist_touch_frame storeAbc sampleRec
    { id := 1, content := "abc", data_type := "text", md5 := md5 "abc",
      create_time := 7, is_favorite := true, content_highlight := none }
    99 (by decide)
  exact ⟨by decide, h.1, h.2.1, h.2.2.1⟩

/-! ### C6 -/

/-- C6: `mark_favorite` on an absent id fails with the not-found error
(leaving the store value unchanged, since no updated store is produced);
on success the id counter is unchanged and the resulting rows are the old
rows with only `is_favorite` replaced (by the negation of the found
record's flag) on the row(s) carrying the target id — every other field
and every other row are untouched. -/
theorem mark_favorite_spec (s : Store) (id : Nat) :
    (s.rows.find? (fun q => q.id == id) = none →
        mark_favorite s id = .error .queryReturnedNoRows)
      ∧ (∀ s1, mark_favorite s id = .ok s1 →
          ∃ t, s.rows.find? (fun q => q.id == id) = some t
            ∧ s1.nextId = s.nextId
            ∧ s1.rows = s.rows.map (fun q =>
                if q.id = id then { q with is_favorite := !t.is_favorite }
                else q)) := by
  constructor
  · intro hn
    simp [mark_favorite, find_by_id, hn]
  · intro s1 hok
    cases hf : s.rows.find? (fun q => q.id == id) with
    | none => simp [mark_favorite, find_by_id, hf] at hok
    | some t =>
      refine ⟨t, rfl, ?_, ?_⟩ <;>
        · simp only [mark_favorite, find_by_id, hf, Except.ok.injEq] at hok
          rw [← hok]

/-- Witness for `mark_favorite_spec` at `storeAbc`: id `99` is absent and
fails with not-found; id `1` is present and gets exactly its flag
flipped. -/
theorem mark_favorite_spec_witness :
    mark_favorite storeAbc 99 = .error .queryReturnedNoRows
      ∧ (∃ t, storeAbc.rows.find? (fun q => q.id == 1) = some t
          ∧ (⟨[{ id := 1, content := "abc", data_type := "text",
                 md5 := md5 "abc", create_time := 7, is_favorite := false,
                 content_highlight := none }], 2⟩ : Store).nextId
              = storeAbc.nextId
          ∧ (⟨[{ id := 1, content := "abc", data_type := "text",
                 md5 := md5 "abc", create_time := 7, is_favorite := false,
                 content_highlight := none }], 2⟩ : Store).rows
              = storeAbc.rows.map (fun q =>
                  if q.id = 1 then { q with is_favorite := !t.is_favorite }
                  else q)) :=
  ⟨(mark_favorite_spec storeAbc 99).1 (by decide),
   (mark_favorite_spec storeAbc 1).2 _ rfl⟩

/-! ### C5 -/

/-- C5: on a store with distinct ids (the `PRIMARY KEY` invariant), if the
target id is present then toggling the favorite flag twice restores the
store exactly — in particular the record's `is_favorite` returns to its
original value. -/
theorem mark_favorite_twice_restores (s : Store) (id : Nat)
    (hnd : (s.rows.map Record.id).Nodup)
    (h : (s.rows.find? (fun q => q.id == id)).isSome) :
    ∃ s1, mark_favorite s id = .ok s1 ∧ mark_favorite s1 id = .ok s := by
  obtain ⟨t, hf⟩ := Option.isSome_iff_exists.mp h
  have hbeq := List.find?_some hf
  have htid : t.id = id := by simpa using hbeq
  have htmem : t ∈ s.rows := List.mem_of_find?_eq_some hf
  refine ⟨{ s with rows := s.rows.map (fun q =>
      if q.id = id then { q with is_favorite := !t.is_favorite } else q) }, ?_, ?_⟩
  · simp [mark_favorite, find_by_id, hf]
  · have hid : ∀ q : Record,
        ((fun q => if q.id = id then { q with is_favorite := !t.is_favorite }
            else q) q).id = q.id := by
      intro q; by_cases hq : q.id = id <;> simp [hq]
    have hfind2 : (s.rows.map (fun q =>
          if q.id = id then { q with is_favorite := !t.is_favorite } else q)).find?
            (fun q => q.id == id)
        = some { t with is_favorite := !t.is_favorite } := by
      rw [find?_map_of_pred_eq _ _ (fun q => by rw [hid q]) s.rows, hf]
      simp [htid]
    have hfb : find_by_id
        ({ s with rows := s.rows.map (fun q =>
            if q.id = id then { q with is_favorite := !t.is_favorite } else q) } : Store) id
        = .ok { t with is_favorite := !t.is_favorite, content_highlight := none } := by
      simp [find_by_id, hfind2]
    have hrows : (s.rows.map (fun q =>
          if q.id = id then { q with is_favorite := !t.is_favorite } else q)).map
            (fun q => if q.id = id then { q with is_favorite := t.is_favorite } else q)
        = s.rows := by
      rw [List.map_map]
      have hpt : ∀ q ∈ s.rows,
          ((fun q => if q.id = id then { q with is_favorite := t.is_favorite } else q) ∘
            (fun q => if q.id = id then { q with is_favorite := !t.is_favorite } else q)) q
          = q := by
        intro q hq
        by_cases hqid : q.id = id
        · have hqt : q = t :=
            eq_of_id_eq_of_nodup hnd htmem hq (by rw [hqid, htid])
          subst hqt
          simp only [Function.comp_apply, hqid, if_pos]
          rw [← hqid]
        · simp [Function.comp_apply, hqid]
      rw [List.map_congr_left hpt, List.map_id']
    simp only [mark_favorite, hfb, Bool.not_not]
    rw [hrows]

/-- Witness for `mark_favorite_twice_restores`: the ids of `storeAbc` are
distinct, id `1` is present, and toggling it twice returns the store to
its original value. -/
theorem mark_favorite_twice_restores_witness :
    (storeAbc.rows.map Record.id).Nodup
      ∧ (storeAbc.rows.find? (fun q => q.id == 1)).isSome
      ∧ ∃ s1, mark_favorite storeAbc 1 = .ok s1
          ∧ mark_favorite s1 1 = .ok storeAbc :=
  ⟨by decide, by decide,
    mark_favorite_twice_restores storeAbc 1 (by decide) (by decide)⟩

/-! ### C2 -/

/-- C2: starting from a well-formed store holding no record with content
`c`, inserting content `c` at time `t1` and again at time `t2` leaves
exactly one record with content `c`, and every record with content `c`
(that one) carries `create_time = t2`, the time of the second call. -/
theorem insert_twice_dedups (s : Store) (c : String) (r1 r2 : Record)
    (t1 t2 : Nat) (hwf : WF s) (habs : ∀ q ∈ s.rows, q.content ≠ c)
    (h1 : r1.content = c) (h2 : r2.content = c) :
    ((insert_if_not_exist (insert_if_not_exist s r1 t1) r2 t2).rows.filter
        (fun q => q.content == c)).length = 1
      ∧ ∀ q ∈ (insert_if_not_exist (insert_if_not_exist s r1 t1) r2 t2).rows,
          q.content = c → q.create_time = t2 := by
  obtain ⟨hnd, hlt, hhash⟩ := hwf
  have hno : ∀ q ∈ s.rows, ¬ ((q.md5 == md5 c) = true) := by
    intro q hq hbe
    have hqm : q.md5 = md5 c := by simpa using hbe
    have hcq : q.content = c := md5_inj (by rw [← hhash q hq]; exact hqm)
    exact habs q hq hcq
  have hfind1 : s.rows.find? (fun q => q.md5 == md5 r1.content) = none := by
    rw [h1]; exact List.find?_eq_none.2 hno
  have hs1 : insert_if_not_exist s r1 t1
      = ({ rows := s.rows ++
            [{ id := s.nextId, content := r1.content, data_type := r1.data_type,
               md5 := md5 r1.content, create_time := t1,
               is_favorite := r1.is_favorite, content_highlight := none }],
           nextId := s.nextId + 1 } : Store) := by
    simp [insert_if_not_exist, find_record_by_md5, hfind1,
      insert_if_not_exist_after_lookup, insert_record]
  have hfind2 : List.find? (fun q => q.md5 == md5 r2.content)
        (s.rows ++
          [({ id := s.nextId, content := r1.content, data_type := r1.data_type,
              md5 := md5 r1.content, create_time := t1,
              is_favorite := r1.is_favorite,
              content_highlight := none } : Record)])
      = some ({ id := s.nextId, content := r1.content,
                data_type := r1.data_type, md5 := md5 r1.content,
                create_time := t1, is_favorite := r1.is_favorite,
                content_highlight := none } : Record) := by
    rw [h2, List.find?_append, List.find?_eq_none.2 hno]
    simp [h1]
  have hfinal : (insert_if_not_exist (insert_if_not_exist s r1 t1) r2 t2).rows
      = s.rows ++
        [{ id := s.nextId, content := r1.content, data_type := r1.data_type,
           md5 := md5 r1.content, create_time := t2,
           is_favorite := r1.is_favorite, content_highlight := none }] := by
    rw [hs1]
    simp only [insert_if_not_exist, find_record_by_md5, hfind2,
      insert_if_not_exist_after_lookup, update_record_create_time,
      Record.rustDefault, List.map_append]
    have huntouched : s.rows.map (fun q =>
        if q.id = s.nextId then { q with create_time := t2 } else q) = s.rows := by
      have hpt : ∀ q ∈ s.rows, (fun q =>
          if q.id = s.nextId then { q with create_time := t2 } else q) q = q := by
        intro q hq
        have : q.id ≠ s.nextId := Nat.ne_of_lt (hlt q hq)
        simp [this]
      rw [List.map_congr_left hpt, List.map_id']
    rw [huntouched]
    simp
  constructor
  · rw [hfinal, List.filter_append]
    have hleft : s.rows.filter (fun q => q.content == c) = [] := by
      rw [List.filter_eq_nil_iff]
      intro q hq hbe
      exact habs q hq (by simpa using hbe)
    rw [hleft]
    simp [h1]
  · intro q hq hqc
    rw [hfinal] at hq
    rcases List.mem_append.1 hq with hql | hqr
    · exact absurd hqc (habs q hql)
    · have hq1 : q =
          ({ id := s.nextId, content := r1.content,
             data_type := r1.data_type, md5 := md5 r1.content,
             create_time := t2, is_favorite := r1.is_favorite,
             content_highlight := none } : Record) := by
        simpa using hqr
      rw [hq1]

/-- Witness for `insert_twice_dedups`: inserting `"abc"` twice into the
empty store (times 10 then 20) leaves one `"abc"` record and every
`"abc"` record carries time 20. -/
theorem insert_twice_dedups_witness :
    WF ⟨[], 0⟩
      ∧ ((insert_if_not_exist (insert_if_not_exist ⟨[], 0⟩ sampleRec 10)
            sampleRec 20).rows.filter (fun q => q.content == "abc")).length = 1
      ∧ ∀ q ∈ (insert_if_not_exist (insert_if_not_exist ⟨[], 0⟩ sampleRec 10)
            sampleRec 20).rows, q.content = "abc" → q.create_time = 20 :=
  ⟨by decide,
    (insert_twice_dedups ⟨[], 0⟩ "abc" sampleRec sampleRec 10 20 (by decide)
      (by intro q hq; cases hq) rfl rfl).1,
    (insert_twice_dedups ⟨[], 0⟩ "abc" sampleRec sampleRec 10 20 (by decide)
      (by intro q hq; cases hq) rfl rfl).2⟩

/-! ### C7 -/

/-- C7: every record returned by `find_by_key` stems from a stored row of
data type `"text"` (so image rows are never returned) that passes the
substring filter (when a key is given) and the favorite filter (when
given); the results are ordered by `create_time` descending; and the
result count is capped at the requested limit (`300` when none is
given). -/
theorem find_by_key_spec (s : Store) (req : QueryReq) :
    (∀ r ∈ find_by_key s req,
        r.data_type = "text"
          ∧ (∀ k, req.key = some k → likeMatch k r.content = true)
          ∧ (∀ f, req.is_favorite = some f → r.is_favorite = f)
          ∧ ∃ q ∈ s.rows, q.data_type = "text" ∧ r.content = q.content
              ∧ r.is_favorite = q.is_favorite ∧ r.create_time = q.create_time
              ∧ r.id = q.id)
      ∧ List.Sorted byTimeDesc (find_by_key s req)
      ∧ (find_by_key s req).length ≤ req.limit.getD 300 := by
  refine ⟨?_, ?_, ?_⟩
  · intro r hr
    simp only [find_by_key, List.mem_map] at hr
    obtain ⟨q, hq, rfl⟩ := hr
    have hq' : q ∈ s.rows.filter (queryPred req) :=
      (List.mem_insertionSort byTimeDesc).1 (List.mem_of_mem_take hq)
    obtain ⟨hqs, hqp⟩ := List.mem_filter.1 hq'
    simp only [queryPred, Bool.and_eq_true, beq_iff_eq] at hqp
    obtain ⟨⟨hdt, hkey⟩, hfav⟩ := hqp
    refine ⟨rfl, ?_, ?_, q, hqs, hdt, rfl, rfl, rfl, rfl⟩
    · intro k hk
      rw [hk] at hkey
      exact hkey
    · intro f hf
      rw [hf] at hfav
      simpa using hfav
  · have hs : List.Pairwise byTimeDesc
        (((s.rows.filter (queryPred req)).insertionSort byTimeDesc).take
          (req.limit.getD 300)) :=
      List.Pairwise.sublist (List.take_sublist _ _)
        (List.sorted_insertionSort byTimeDesc _)
    simp only [find_by_key]
    exact List.Pairwise.map _ (fun a b h => h) hs
  · simp only [find_by_key, List.length_map]
    exact List.length_take_le _ _

/-- A three-row store for the search witnesses: two text rows (one
favorite) and one image row. -/
def searchStore : Store :=
  ⟨[{ id := 1, content := "apple", data_type := "text", md5 := md5 "apple",
      create_time := 5, is_favorite := false, content_highlight := none },
    { id := 2, content := "art", data_type := "text", md5 := md5 "art",
      create_time := 9, is_favorite := true, content_highlight := none },
    { id := 3, content := "ax", data_type := "image", md5 := md5 "ax",
      create_time := 20, is_favorite := false, content_highlight := none }],
   4⟩

/-- Witness for `find_by_key_spec`: querying `searchStore` with key
`"a"`, limit `10` and favorite filter `false` returns the projected
`"apple"` row; it is text-typed, matches the filters, and the result list
is sorted and within the limit. -/
theorem find_by_key_spec_witness :
    ({ id := 1, content := "apple", data_type := "text", md5 := md5 "apple",
       create_time := 5, is_favorite := false,
       content_highlight := some (highlight "a" "apple") } : Record)
        ∈ find_by_key searchStore ⟨some "a", some 10, some false⟩
      ∧ ({ id := 1, content := "apple", data_type := "text",
           md5 := md5 "apple", create_time := 5, is_favorite := false,
           content_highlight := some (highlight "a" "apple") } : Record).data_type
          = "text"
      ∧ likeMatch "a" "apple" = true
      ∧ ({ id := 1, content := "apple", data_type := "text",
           md5 := md5 "apple", create_time := 5, is_favorite := false,
           content_highlight := some (highlight "a" "apple") } : Record).is_favorite
          = false
      ∧ List.Sorted byTimeDesc
          (find_by_key searchStore ⟨some "a", some 10, some false⟩)
      ∧ (find_by_key searchStore ⟨some "a", some 10, some false⟩).length ≤ 10 := by
  have hmem :
      ({ id := 1, content := "apple", data_type := "text",
         md5 := md5 "apple", create_time := 5, is_favorite := false,
         content_highlight := some (highlight "a" "apple") } : Record)
        ∈ find_by_key searchStore ⟨some "a", some 10, some false⟩ := by decide
  have h := (find_by_key_spec searchStore ⟨some "a", some 10, some false⟩).1 _ hmem
  exact ⟨hmem, h.1, h.2.1 "a" rfl, h.2.2.1 false rfl,
    (find_by_key_spec searchStore ⟨some "a", some 10, some false⟩).2.1,
    (find_by_key_spec searchStore ⟨some "a", some 10, some false⟩).2.2⟩

/-! ### C8 -/

/-- C8: a record returned by `find_by_key` carries
`content_highlight = some (highlight k content)` exactly when a text
filter `k` was supplied and `none` otherwise; records returned by
`find_all` always carry `content_highlight = none`. -/
theorem content_highlight_presence (s : Store) (req : QueryReq) :
    (∀ r ∈ find_by_key s req,
        (∀ k, req.key = some k →
            r.content_highlight = some (highlight k r.content))
          ∧ (req.key = none → r.content_highlight = none))
      ∧ (∀ r ∈ find_all s, r.content_highlight = none) := by
  constructor
  · intro r hr
    simp only [find_by_key, List.mem_map] at hr
    obtain ⟨q, _, rfl⟩ := hr
    constructor
    · intro k hk
      simp only [hk]
    · intro hk
      simp only [hk]
  · intro r hr
    simp only [find_all, List.mem_map] at hr
    obtain ⟨q, _, rfl⟩ := hr
    rfl

/-- Witness for `content_highlight_presence`: with key `"a"` the returned
`"apple"` record's highlight is `highlight "a" "apple"`; with no key a
returned record's highlight is `none`, as is that of every `find_all`
record. -/
theorem content_highlight_presence_witness :
    ({ id := 1, content := "apple", data_type := "text", md5 := md5 "apple",
       create_time := 5, is_favorite := false,
       content_highlight := some (highlight "a" "apple") } : Record).content_highlight
        = some (highlight "a" "apple")
      ∧ ({ id := 2, content := "art", data_type := "text", md5 := md5 "art",
           create_time := 9, is_favorite := true,
           content_highlight := none } : Record).content_highlight = none
      ∧ ({ id := 3, content := "ax", data_type := "image", md5 := md5 "ax",
           create_time := 20, is_favorite := false,
           content_highlight := none } : Record).content_highlight = none := by
  refine ⟨?_, ?_, ?_⟩
  · exact ((content_highlight_presence searchStore
      ⟨some "a", some 10, some false⟩).1 _ (by decide)).1 "a" rfl
  · exact ((content_highlight_presence searchStore
      ⟨none, none, none⟩).1 _ (by decide)).2 rfl
  · exact (content_highlight_presence searchStore ⟨none, none, none⟩).2 _
      (by decide)

end Lanaya
